import Mathlib

/-!
Shallow embedding of the GPS Speed Monitor mini server (`src/server.js`):
Express route handlers over a better-sqlite3 `violations` table.  JS runtime
values are modelled by `JSVal`, SQLite storage values by `SqlVal`, the
database by `State`, and each route handler by a Lean function on `State`.
-/

namespace SpeedServer

/-- Values a JSON body field (or a missing field) can take in the handlers.
`num` carries a rational; `nan` is the NaN number.  (Infinities, booleans and
nested objects never arise in the claims and are not modelled.) -/
inductive JSVal where
  | undef
  | null
  | nan
  | num (x : ℚ)
  | str (s : String)
  deriving DecidableEq

/-- Whether `typeof v === 'number'` holds (NaN is a number in JS). -/
def JSVal.typeofNumber : JSVal → Bool
  | .nan => true
  | .num _ => true
  | _ => false

/-- JS truthiness of the modelled values. -/
def JSVal.truthy : JSVal → Bool
  | .undef => false
  | .null => false
  | .nan => false
  | .num x => decide (x ≠ 0)
  | .str s => decide (s ≠ "")

/-- Loose inequality `v != null`: false exactly for `null` and `undefined`. -/
def JSVal.looseNeqNull : JSVal → Bool
  | .null => false
  | .undef => false
  | _ => true

/-- Nullish coalescing `x ?? y`. -/
def jsNullish (x y : JSVal) : JSVal :=
  match x with
  | .undef => y
  | .null => y
  | _ => x

/-- JS subtraction as used in `speed - limit`.  Both operands have passed the
`typeof === 'number'` validation whenever this is evaluated, so only the
numeric cases are reachable; NaN propagates.  (String coercion of the minus
operator is never exercised and is collapsed to NaN.) -/
def jsSub (x y : JSVal) : JSVal :=
  match x, y with
  | .num a, .num b => .num (a - b)
  | _, _ => .nan

/-- JS `toUpperCase()` on the ASCII strings the server handles, modelled as
character-wise upper-casing. -/
def strUpper (s : String) : String := String.mk (s.data.map Char.toUpper)

/-- Conversion `String(v)`.  Every use in the handlers is on a value already
known to be a string (tier after validation, query parameters), so only the
`str` case is reachable; the numeric rendering is schematic. -/
def jsStringOf : JSVal → String
  | .undef => "undefined"
  | .null => "null"
  | .nan => "NaN"
  | .num x => toString x
  | .str s => s

/-- Longest digit prefix of a character list, together with the rest. -/
def takeDigits : List Char → List Char × List Char
  | [] => ([], [])
  | c :: cs =>
    if c.isDigit then
      let r := takeDigits cs
      (c :: r.1, r.2)
    else ([], c :: cs)

/-- Value of a list of decimal digits. -/
def digitsToNat (ds : List Char) : Nat :=
  ds.foldl (fun a c => a * 10 + (c.toNat - 48)) 0

/-- Decimal-literal prefix of a string, as JS `parseFloat` reads it after
skipping leading whitespace (optional sign, integer digits, optional
fraction; exponents and `Infinity`, which no claim exercises, are not
modelled).  `none` is the NaN outcome. -/
def parseFloatStr (s : String) : Option ℚ :=
  let cs := s.toList.dropWhile Char.isWhitespace
  let signed : ℚ × List Char :=
    match cs with
    | '-' :: r => (-1, r)
    | '+' :: r => (1, r)
    | r => (1, r)
  let ip := takeDigits signed.2
  let fp :=
    match ip.2 with
    | '.' :: r => (takeDigits r).1
    | _ => []
  if ip.1 = [] ∧ fp = [] then none
  else
    some (signed.1 * ((digitsToNat ip.1 : ℚ) + (digitsToNat fp : ℚ) / (10 : ℚ) ^ fp.length))

/-- JS `parseFloat` applied to a body value (non-strings go through their
string form, which never yields digits for the modelled values). -/
def jsParseFloat (v : JSVal) : JSVal :=
  match v with
  | .num x => .num x
  | .str s =>
    match parseFloatStr s with
    | some x => .num x
    | none => .nan
  | _ => .nan

/-- Whether a character is a hexadecimal digit. -/
def isHexDigitChar (c : Char) : Bool :=
  c.isDigit || ('a' ≤ c && c ≤ 'f') || ('A' ≤ c && c ≤ 'F')

/-- Longest hexadecimal-digit prefix of a character list. -/
def takeHexDigits : List Char → List Char × List Char
  | [] => ([], [])
  | c :: cs =>
    if isHexDigitChar c then
      let r := takeHexDigits cs
      (c :: r.1, r.2)
    else ([], c :: cs)

/-- Value of a list of hexadecimal digits. -/
def hexDigitsToNat (ds : List Char) : Nat :=
  ds.foldl
    (fun a c =>
      a * 16 +
        (if c.isDigit then c.toNat - 48
         else if 'a' ≤ c then c.toNat - 87
         else c.toNat - 55))
    0

/-- JS `parseInt` called without a radix argument, as the source does: after
optional whitespace and sign, a `0x`/`0X` prefix switches to hexadecimal,
otherwise the decimal digit prefix is read; `none` is the NaN outcome. -/
def jsParseIntStr (s : String) : Option Int :=
  let cs := s.toList.dropWhile Char.isWhitespace
  let signed : Int × List Char :=
    match cs with
    | '-' :: r => (-1, r)
    | '+' :: r => (1, r)
    | r => (1, r)
  match signed.2 with
  | '0' :: 'x' :: r =>
    let ds := (takeHexDigits r).1
    if ds = [] then none else some (signed.1 * hexDigitsToNat ds)
  | '0' :: 'X' :: r =>
    let ds := (takeHexDigits r).1
    if ds = [] then none else some (signed.1 * hexDigitsToNat ds)
  | r =>
    let ds := (takeDigits r).1
    if ds = [] then none else some (signed.1 * digitsToNat ds)

/-- Request body of POST /api/violation; a missing JSON field is `undef`. -/
structure Body where
  device : JSVal := .undef
  speed : JSVal := .undef
  limit : JSVal := .undef
  excess : JSVal := .undef
  tier : JSVal := .undef
  lat : JSVal := .undef
  lon : JSVal := .undef
  deriving DecidableEq

/-- The tier enumeration appearing in `validateViolation`. -/
def tierEnum : List String := ["MINOR", "MODERATE", "SEVERE"]

/-- Membership test `['MINOR','MODERATE','SEVERE'].includes(body.tier)`:
strict-equality membership, so only one of those exact strings matches. -/
def tierIncluded : JSVal → Bool
  | .str s => decide (s ∈ tierEnum)
  | _ => false

/-- Function `validateViolation(body)` from `server.js` (lines 103-111). -/
def validateViolation (b : Body) : List String :=
  (if b.speed.typeofNumber then [] else ["speed must be a number"]) ++
    ((if b.limit.typeofNumber then [] else ["limit must be a number"]) ++
      ((if b.tier.truthy then [] else ["tier is required"]) ++
        (if tierIncluded b.tier then [] else ["tier must be MINOR, MODERATE or SEVERE"])))

/-- A SQLite storage value.  better-sqlite3 binds JS numbers as REAL and
strings as TEXT; NaN has no SQLite representation and is stored as NULL. -/
inductive SqlVal where
  | null
  | real (x : ℚ)
  | text (s : String)
  deriving DecidableEq

/-- Parameter binding of one field of the row object.  `undef` never reaches
a bind in the handlers (better-sqlite3 would throw); it is mapped to NULL
together with `null` and `nan`. -/
def bindJS : JSVal → SqlVal
  | .num x => .real x
  | .str s => .text s
  | _ => .null

/-- A row of the `violations` table.  The column `received_at`
(a `datetime('now','localtime')` text in SQLite) is modelled as a strictly
increasing insertion tick; claims only use its relative order. -/
structure StoredRow where
  id : Nat
  device : SqlVal
  speed : SqlVal
  speed_limit : SqlVal
  excess : SqlVal
  tier : SqlVal
  lat : SqlVal
  lon : SqlVal
  received_at : Nat
  deriving DecidableEq

/-- The bound parameters of `stmtInsert` (the `row` object of the POST
handler). -/
structure RowIn where
  device : SqlVal
  speed : SqlVal
  speed_limit : SqlVal
  excess : SqlVal
  tier : SqlVal
  lat : SqlVal
  lon : SqlVal
  deriving DecidableEq

/-- Database state: the table rows in insertion order, the AUTOINCREMENT
counter (never reset by `DELETE FROM`), and the clock tick that stands for
the wall-clock `received_at`. -/
structure State where
  rows : List StoredRow := []
  nextId : Nat := 1
  clock : Nat := 0
  deriving DecidableEq

/-- The freshly created database. -/
def initState : State := {}

/-- The stored row produced by inserting `r` into state `st`: the store
assigns `id` and `received_at`. -/
def storedOf (st : State) (r : RowIn) : StoredRow :=
  { id := st.nextId, device := r.device, speed := r.speed,
    speed_limit := r.speed_limit, excess := r.excess, tier := r.tier,
    lat := r.lat, lon := r.lon, received_at := st.clock }

/-- Statement `stmtInsert.run(row)`: enforces the NOT NULL constraints of the
schema on device, speed, speed_limit, excess and tier; on success appends the
row with the assigned id and receipt tick and returns the id
(`info.lastInsertRowid`). -/
def insertRow (st : State) (r : RowIn) : Except String (State × Nat) :=
  if r.device = SqlVal.null ∨ r.speed = SqlVal.null ∨ r.speed_limit = SqlVal.null ∨
      r.excess = SqlVal.null ∨ r.tier = SqlVal.null then
    Except.error "NOT NULL constraint failed: violations"
  else
    Except.ok
      ({ rows := st.rows ++ [storedOf st r], nextId := st.nextId + 1, clock := st.clock + 1 },
       st.nextId)

/-- An HTTP response, together with what the handler wrote to the server
console (`serverLog`, which is not part of the body sent to the client; the
success-path console.log lines of the handlers are not modelled). -/
structure Response where
  status : Nat
  ok : Bool
  errors : List String := []
  error : Option String := none
  id : Option Nat := none
  violation : Option StoredRow := none
  violations : List StoredRow := []
  count : Option Nat := none
  message : Option String := none
  serverLog : List String := []
  deriving DecidableEq

/-- The normalized `row` object built by the POST handler after validation
passes (destructuring defaults `device = 'UNKNOWN'`, `lat = null`,
`lon = null` included). -/
def buildRow (b : Body) : RowIn :=
  let device := if b.device = JSVal.undef then JSVal.str "UNKNOWN" else b.device
  { device := bindJS device,
    speed := bindJS (jsParseFloat b.speed),
    speed_limit := bindJS (jsParseFloat b.limit),
    excess := bindJS (jsParseFloat (jsNullish b.excess (jsSub b.speed b.limit))),
    tier := SqlVal.text (strUpper (jsStringOf b.tier)),
    lat := if (jsNullish b.lat JSVal.null).looseNeqNull then
             bindJS (jsParseFloat (jsNullish b.lat JSVal.null))
           else SqlVal.null,
    lon := if (jsNullish b.lon JSVal.null).looseNeqNull then
             bindJS (jsParseFloat (jsNullish b.lon JSVal.null))
           else SqlVal.null }

/-- Handler of POST /api/violation.  `fault` injects a throw of the
underlying store (better-sqlite3) with the given message, modelling a
persistence failure independent of the row's own constraints. -/
def postViolation (st : State) (fault : Option String) (b : Body) : State × Response :=
  let errors := validateViolation b
  if errors ≠ [] then
    (st, { status := 400, ok := false, errors := errors })
  else
    match fault with
    | some msg =>
      (st, { status := 500, ok := false, error := some "Database error",
             serverLog := ["[POST] DB error: " ++ msg] })
    | none =>
      match insertRow st (buildRow b) with
      | Except.ok p => (p.1, { status := 201, ok := true, id := some p.2 })
      | Except.error msg =>
        (st, { status := 500, ok := false, error := some "Database error",
               serverLog := ["[POST] DB error: " ++ msg] })

/-- Query string of GET /api/violations (each parameter is a string when
present, as Express delivers it). -/
structure Query where
  limit : Option String := none
  tier : Option String := none
  device : Option String := none
  deriving DecidableEq

/-- Computation `Math.min(parseInt(req.query.limit || '200'), 1000)`:
`none` is the NaN outcome (Math.min propagates NaN). -/
def parseLimit (q : Option String) : Option Int :=
  let s := match q with
    | none => "200"
    | some s => if s = "" then "200" else s
  (jsParseIntStr s).map (fun n => min n 1000)

/-- One insertion step of the sort standing for `ORDER BY received_at DESC`. -/
def insertByRecv (r : StoredRow) : List StoredRow → List StoredRow
  | [] => [r]
  | x :: xs =>
    if x.received_at ≤ r.received_at then r :: x :: xs else x :: insertByRecv r xs

/-- Ordering `ORDER BY received_at DESC` (ties are broken arbitrarily in
SQLite; no claim depends on tie order). -/
def sortByRecvDesc (l : List StoredRow) : List StoredRow := l.foldr insertByRecv []

/-- SQLite `LIMIT ?` applied to an integer bind: a negative limit means no
upper bound, otherwise at most that many rows are returned. -/
def applyLimit (n : Int) (l : List StoredRow) : List StoredRow :=
  if n < 0 then l else l.take n.toNat

/-- Handler of GET /api/violations.  `fault` injects a store failure whose
message `err.message` this handler writes into the response body.  A NaN
limit is bound as NULL, on which SQLite's LIMIT raises a datatype-mismatch
error; the handler's catch surfaces that message the same way. -/
def getViolations (st : State) (fault : Option String) (q : Query) : Response :=
  let lim := parseLimit q.limit
  let tierF : Option String :=
    match q.tier with
    | some s => if s = "" then none else some (strUpper s)
    | none => none
  let deviceF : Option String :=
    match q.device with
    | some s => if s = "" then none else some s
    | none => none
  match fault with
  | some msg => { status := 500, ok := false, error := some msg }
  | none =>
    match lim with
    | none => { status := 500, ok := false, error := some "datatype mismatch" }
    | some n =>
      let rows := st.rows.filter (fun r =>
        (match tierF with
         | some t => r.tier == SqlVal.text t
         | none => true) &&
        (match deviceF with
         | some d => r.device == SqlVal.text d
         | none => true))
      let out := applyLimit n (sortByRecvDesc rows)
      { status := 200, ok := true, count := some out.length, violations := out }

/-- Handler of GET /api/violations/:id — `stmtById.get(parseInt(id))`; a NaN
id binds NULL and matches no row. -/
def getViolationById (st : State) (idStr : String) : Response :=
  match jsParseIntStr idStr with
  | none => { status := 404, ok := false, error := some "Not found" }
  | some n =>
    match st.rows.find? (fun r => (r.id : Int) == n) with
    | some r => { status := 200, ok := true, violation := some r }
    | none => { status := 404, ok := false, error := some "Not found" }

/-- Count of rows with `tier = 'SEVERE'`. -/
def severeCount (l : List StoredRow) : Nat :=
  l.countP (fun r => r.tier == SqlVal.text "SEVERE")

/-- Count of rows with `tier = 'MODERATE'`. -/
def moderateCount (l : List StoredRow) : Nat :=
  l.countP (fun r => r.tier == SqlVal.text "MODERATE")

/-- Count of rows with `tier = 'MINOR'`. -/
def minorCount (l : List StoredRow) : Nat :=
  l.countP (fun r => r.tier == SqlVal.text "MINOR")

/-- SQLite `ROUND(x, 2)` (round half away from zero). -/
def round2 (x : ℚ) : ℚ :=
  (((if 0 ≤ x then ⌊x * 100 + 1 / 2⌋ else -⌊(-(x * 100)) + 1 / 2⌋) : ℤ) : ℚ) / 100

/-- Numeric reading of a stored value as the SQLite aggregates see it (NULL
is skipped; TEXT coerces through its numeric prefix, else 0). -/
def sqlNumOf : SqlVal → Option ℚ
  | .null => none
  | .real x => some x
  | .text s => some ((parseFloatStr s).getD 0)

/-- The result row of `stmtStats`.  SUM, AVG and MAX over an empty table are
NULL (`none`). -/
structure Stats where
  total : Nat
  devices : Nat
  avg_excess : Option ℚ
  max_speed : Option ℚ
  severe : Option Nat
  moderate : Option Nat
  minor : Option Nat
  deriving DecidableEq

/-- Query `stmtStats.get()` over the current rows. -/
def summaryStats (l : List StoredRow) : Stats :=
  let excesses := l.filterMap (fun r => sqlNumOf r.excess)
  let speeds := l.filterMap (fun r => sqlNumOf r.speed)
  { total := l.length,
    devices := (l.map (fun r => r.device)).dedup.length,
    avg_excess :=
      match excesses with
      | [] => none
      | x :: xs => some (round2 ((x :: xs).sum / ((x :: xs).length : ℚ))),
    max_speed :=
      match speeds with
      | [] => none
      | x :: xs => some (round2 (xs.foldl max x)),
    severe := if l.isEmpty then none else some (severeCount l),
    moderate := if l.isEmpty then none else some (moderateCount l),
    minor := if l.isEmpty then none else some (minorCount l) }

/-- Handler of DELETE /api/violations with `?key=` (`none` when absent;
strict `!==` comparison against the configured ADMIN_KEY). -/
def deleteViolations (st : State) (key : Option String) (adminKey : String) :
    State × Response :=
  if key ≠ some adminKey then
    (st, { status := 401, ok := false, error := some "Unauthorized" })
  else
    ({ st with rows := [] },
     { status := 200, ok := true, message := some "All violations deleted",
       serverLog := ["[ADMIN] Violations table cleared"] })

/-- States reachable from the empty database through the two mutating routes
(a faulted insert leaves the state unchanged, so `fault := none` already
covers every reachable state). -/
inductive Reachable : State → Prop where
  | init : Reachable initState
  | post (st : State) (b : Body) : Reachable st → Reachable (postViolation st none b).1
  | del (st : State) (key : Option String) (adminKey : String) :
      Reachable st → Reachable (deleteViolations st key adminKey).1

/-- A minimal body `{device, speed, limit, tier}` with excess, lat and lon
omitted. -/
def mkBody (d : String) (x y : ℚ) (t : String) : Body :=
  { device := .str d, speed := .num x, limit := .num y, tier := .str t }

/-- Payload of the spec example with lower-case tier. -/
def bodyLowerTier : Body := mkBody "D1" 80 50 "severe"

/-- Payload whose tier is the empty string. -/
def bodyEmptyTier : Body := { speed := .num 80, limit := .num 50, tier := .str "" }

/-- Payload whose speed is the numeric string "80". -/
def bodyStrSpeed : Body :=
  { device := .str "D1", speed := .str "80", limit := .num 50, tier := .str "SEVERE" }

/-- Payload of the spec example with non-numeric speed. -/
def bodySpeedX : Body :=
  { device := .str "D1", speed := .str "x", limit := .num 50, tier := .str "SEVERE" }

/-- A fully valid payload. -/
def bodyGood : Body := mkBody "D1" 80 50 "SEVERE"

/-- A payload that passes validation but supplies a non-numeric excess. -/
def bodyExcessBad : Body :=
  { device := .str "D1", speed := .num 80, limit := .num 50, excess := .str "x",
    tier := .str "SEVERE" }

/-- A payload that passes validation but supplies a non-numeric latitude. -/
def bodyLatBad : Body :=
  { device := .str "D1", speed := .num 80, limit := .num 50, excess := .num 30,
    tier := .str "SEVERE", lat := .str "x" }

/-- A payload with an explicitly empty device string. -/
def bodyEmptyDevice : Body :=
  { device := .str "", speed := .num 80, limit := .num 50, tier := .str "SEVERE" }

/-- A payload with the device field absent. -/
def bodyNoDevice : Body := { speed := .num 80, limit := .num 50, tier := .str "SEVERE" }

/-- The state after one successful POST of `bodyGood`. -/
def stGood : State := (postViolation initState none bodyGood).1

/-- Validation returns no errors exactly when all four checks pass. -/
theorem validate_nil_iff (b : Body) :
    validateViolation b = [] ↔
      (b.speed.typeofNumber = true ∧ b.limit.typeofNumber = true ∧
        b.tier.truthy = true ∧ tierIncluded b.tier = true) := by
  have h : ∀ p q r s : Bool,
      ((if p then ([] : List String) else ["speed must be a number"]) ++
          ((if q then ([] : List String) else ["limit must be a number"]) ++
            ((if r then ([] : List String) else ["tier is required"]) ++
              (if s then ([] : List String)
               else ["tier must be MINOR, MODERATE or SEVERE"])))) = [] ↔
        (p = true ∧ q = true ∧ r = true ∧ s = true) := by decide
  exact h b.speed.typeofNumber b.limit.typeofNumber b.tier.truthy (tierIncluded b.tier)

/-- The speed error occurs exactly when speed is not number-typed. -/
theorem speed_err_mem_iff (b : Body) :
    "speed must be a number" ∈ validateViolation b ↔ b.speed.typeofNumber = false := by
  have h : ∀ p q r s : Bool,
      ("speed must be a number" ∈
          ((if p then ([] : List String) else ["speed must be a number"]) ++
            ((if q then ([] : List String) else ["limit must be a number"]) ++
              ((if r then ([] : List String) else ["tier is required"]) ++
                (if s then ([] : List String)
                 else ["tier must be MINOR, MODERATE or SEVERE"]))))) ↔
        p = false := by decide
  exact h b.speed.typeofNumber b.limit.typeofNumber b.tier.truthy (tierIncluded b.tier)

/-- The limit error occurs exactly when limit is not number-typed. -/
theorem limit_err_mem_iff (b : Body) :
    "limit must be a number" ∈ validateViolation b ↔ b.limit.typeofNumber = false := by
  have h : ∀ p q r s : Bool,
      ("limit must be a number" ∈
          ((if p then ([] : List String) else ["speed must be a number"]) ++
            ((if q then ([] : List String) else ["limit must be a number"]) ++
              ((if r then ([] : List String) else ["tier is required"]) ++
                (if s then ([] : List String)
                 else ["tier must be MINOR, MODERATE or SEVERE"]))))) ↔
        q = false := by decide
  exact h b.speed.typeofNumber b.limit.typeofNumber b.tier.truthy (tierIncluded b.tier)

/-- The tier presence error occurs exactly when tier is falsy. -/
theorem required_err_mem_iff (b : Body) :
    "tier is required" ∈ validateViolation b ↔ b.tier.truthy = false := by
  have h : ∀ p q r s : Bool,
      ("tier is required" ∈
          ((if p then ([] : List String) else ["speed must be a number"]) ++
            ((if q then ([] : List String) else ["limit must be a number"]) ++
              ((if r then ([] : List String) else ["tier is required"]) ++
                (if s then ([] : List String)
                 else ["tier must be MINOR, MODERATE or SEVERE"]))))) ↔
        r = false := by decide
  exact h b.speed.typeofNumber b.limit.typeofNumber b.tier.truthy (tierIncluded b.tier)

/-- The tier enum error occurs exactly when tier is not one of the three
exact strings. -/
theorem enum_err_mem_iff (b : Body) :
    "tier must be MINOR, MODERATE or SEVERE" ∈ validateViolation b ↔
      tierIncluded b.tier = false := by
  have h : ∀ p q r s : Bool,
      ("tier must be MINOR, MODERATE or SEVERE" ∈
          ((if p then ([] : List String) else ["speed must be a number"]) ++
            ((if q then ([] : List String) else ["limit must be a number"]) ++
              ((if r then ([] : List String) else ["tier is required"]) ++
                (if s then ([] : List String)
                 else ["tier must be MINOR, MODERATE or SEVERE"]))))) ↔
        s = false := by decide
  exact h b.speed.typeofNumber b.limit.typeofNumber b.tier.truthy (tierIncluded b.tier)

/-- A value passing the includes-check is one of the three exact strings. -/
theorem tierIncluded_elim (v : JSVal) (h : tierIncluded v = true) :
    v = JSVal.str "MINOR" ∨ v = JSVal.str "MODERATE" ∨ v = JSVal.str "SEVERE" := by
  cases v with
  | str s =>
    have hs : s ∈ tierEnum := of_decide_eq_true h
    have h3 : s = "MINOR" ∨ s = "MODERATE" ∨ s = "SEVERE" := by simpa [tierEnum] using hs
    rcases h3 with h1 | h1 | h1 <;> simp [h1]
  | undef => simp [tierIncluded] at h
  | null => simp [tierIncluded] at h
  | nan => simp [tierIncluded] at h
  | num x => simp [tierIncluded] at h

/-- The POST handler either leaves the state unchanged (validation failure or
insert failure) or appends exactly the normalized row and answers 201. -/
theorem postViolation_cases (st : State) (b : Body) :
    ((postViolation st none b).1 = st ∧ (postViolation st none b).2.status ≠ 201) ∨
      (validateViolation b = [] ∧
        (postViolation st none b).1 =
          { rows := st.rows ++ [storedOf st (buildRow b)],
            nextId := st.nextId + 1, clock := st.clock + 1 } ∧
        (postViolation st none b).2 =
          { status := 201, ok := true, id := some st.nextId }) := by
  by_cases hv : validateViolation b = []
  · by_cases hc : (buildRow b).device = SqlVal.null ∨ (buildRow b).speed = SqlVal.null ∨
        (buildRow b).speed_limit = SqlVal.null ∨ (buildRow b).excess = SqlVal.null ∨
        (buildRow b).tier = SqlVal.null
    · left
      simp [postViolation, hv, insertRow, hc]
    · right
      refine ⟨hv, ?_, ?_⟩ <;> simp [postViolation, hv, insertRow, hc]
  · left
    simp [postViolation, hv]

/-- Every stored row id is below the AUTOINCREMENT counter. -/
theorem reachable_id_lt (st : State) (h : Reachable st) :
    ∀ r ∈ st.rows, r.id < st.nextId := by
  induction h with
  | init => intro r hr; simp [initState] at hr
  | post st b _ ih =>
    rcases postViolation_cases st b with ⟨heq, _⟩ | ⟨_, heq, _⟩
    · rw [heq]; exact ih
    · rw [heq]
      intro r hr
      simp only [List.mem_append, List.mem_singleton] at hr
      rcases hr with hr | hr
      · exact Nat.lt_succ_of_lt (ih r hr)
      · simp [hr, storedOf]
  | del st key adminKey _ ih =>
    by_cases hk : key ≠ some adminKey
    · simp only [deleteViolations, if_pos hk]
      exact ih
    · simp only [deleteViolations, if_neg hk]
      intro r hr
      simp at hr

/-- Every stored row's tier is one of the three enum strings. -/
theorem reachable_tier_mem (st : State) (h : Reachable st) :
    ∀ r ∈ st.rows, r.tier = SqlVal.text "MINOR" ∨ r.tier = SqlVal.text "MODERATE" ∨
      r.tier = SqlVal.text "SEVERE" := by
  induction h with
  | init => intro r hr; simp [initState] at hr
  | post st b _ ih =>
    rcases postViolation_cases st b with ⟨heq, _⟩ | ⟨hv, heq, _⟩
    · rw [heq]; exact ih
    · rw [heq]
      intro r hr
      simp only [List.mem_append, List.mem_singleton] at hr
      rcases hr with hr | hr
      · exact ih r hr
      · have hinc : tierIncluded b.tier = true := ((validate_nil_iff b).mp hv).2.2.2
        rcases tierIncluded_elim b.tier hinc with ht | ht | ht <;>
          simp [hr, storedOf, buildRow, ht, jsStringOf] <;> decide
  | del st key adminKey _ ih =>
    by_cases hk : key ≠ some adminKey
    · simp only [deleteViolations, if_pos hk]
      exact ih
    · simp only [deleteViolations, if_neg hk]
      intro r hr
      simp at hr

/-- The three tier counts partition a list whose tiers all lie in the enum. -/
theorem tier_count_partition (l : List StoredRow)
    (h : ∀ r ∈ l, r.tier = SqlVal.text "MINOR" ∨ r.tier = SqlVal.text "MODERATE" ∨
      r.tier = SqlVal.text "SEVERE") :
    severeCount l + moderateCount l + minorCount l = l.length := by
  induction l with
  | nil => simp [severeCount, moderateCount, minorCount]
  | cons a l ih =>
    have ha := h a (by simp)
    have hl : ∀ r ∈ l, r.tier = SqlVal.text "MINOR" ∨ r.tier = SqlVal.text "MODERATE" ∨
        r.tier = SqlVal.text "SEVERE" := fun r hr => h r (by simp [hr])
    have ih2 := ih hl
    simp only [severeCount, moderateCount, minorCount, List.countP_cons, List.length_cons] at *
    rcases ha with ht | ht | ht <;> simp [ht] <;> omega

/-- Auxiliary: find? skips a prefix on which the predicate is false. -/
theorem find?_append_false (p : StoredRow → Bool) (l1 l2 : List StoredRow)
    (h : ∀ r ∈ l1, p r = false) :
    List.find? p (l1 ++ l2) = List.find? p l2 := by
  induction l1 with
  | nil => simp
  | cons a l ih =>
    have ha := h a (by simp)
    simp only [List.cons_append, List.find?, ha]
    exact ih (fun r hr => h r (by simp [hr]))

/-- C1 counterexample: POSTing the spec example `{device:"D1", speed:80,
limit:50, tier:"severe"}` does not return 201 — validation never
case-normalizes tier, so the lower-case tier is rejected with 400 and the
enum-membership error. -/
theorem C1_counterexample :
    (postViolation initState none (mkBody "D1" 80 50 "severe")).2.status = 400 ∧
    (postViolation initState none (mkBody "D1" 80 50 "severe")).2.errors =
      ["tier must be MINOR, MODERATE or SEVERE"] := by decide

/-- C1 (amended): validation accepts tier only when it is exactly one of the
upper-case strings MINOR, MODERATE, SEVERE; such a payload with numeric
speed and limit and omitted excess is stored with that tier (toUpperCase is
the identity on it) and excess speed - limit, answering 201; any tier
outside the exact enum — in particular one differing only in letter case —
is rejected with 400 and the enum-membership error. -/
theorem C1_tier_exact_case (st : State) (d : String) (x y : ℚ) (t u : String)
    (ht : t = "MINOR" ∨ t = "MODERATE" ∨ t = "SEVERE") (hu : u ∉ tierEnum) :
    ((postViolation st none (mkBody d x y t)).2.status = 201 ∧
      (postViolation st none (mkBody d x y t)).1.rows =
        st.rows ++ [storedOf st (buildRow (mkBody d x y t))] ∧
      (buildRow (mkBody d x y t)).tier = SqlVal.text t ∧
      (buildRow (mkBody d x y t)).excess = SqlVal.real (x - y)) ∧
    ((postViolation st none (mkBody d x y u)).2.status = 400 ∧
      "tier must be MINOR, MODERATE or SEVERE" ∈
        (postViolation st none (mkBody d x y u)).2.errors) := by
  constructor
  · rcases ht with h1 | h1 | h1 <;> subst h1 <;> exact ⟨rfl, rfl, rfl, rfl⟩
  · have hti : tierIncluded (JSVal.str u) = false := decide_eq_false hu
    have hmem : "tier must be MINOR, MODERATE or SEVERE" ∈
        validateViolation (mkBody d x y u) :=
      (enum_err_mem_iff (mkBody d x y u)).mpr hti
    have hne : validateViolation (mkBody d x y u) ≠ [] := List.ne_nil_of_mem hmem
    constructor
    · simp [postViolation, hne]
    · simpa [postViolation, hne] using hmem

/-- C1 witness: the amended statement evaluated at the spec example. -/
theorem C1_tier_exact_case_witness :
    ((postViolation initState none (mkBody "D1" 80 50 "SEVERE")).2.status = 201 ∧
      (postViolation initState none (mkBody "D1" 80 50 "SEVERE")).1.rows =
        initState.rows ++ [storedOf initState (buildRow (mkBody "D1" 80 50 "SEVERE"))] ∧
      (buildRow (mkBody "D1" 80 50 "SEVERE")).tier = SqlVal.text "SEVERE" ∧
      (buildRow (mkBody "D1" 80 50 "SEVERE")).excess = SqlVal.real (80 - 50)) ∧
    ((postViolation initState none (mkBody "D1" 80 50 "severe")).2.status = 400 ∧
      "tier must be MINOR, MODERATE or SEVERE" ∈
        (postViolation initState none (mkBody "D1" 80 50 "severe")).2.errors) :=
  C1_tier_exact_case initState "D1" 80 50 "SEVERE" "severe" (by decide) (by decide)

/-- C2 counterexample: a payload whose tier is the empty string produces BOTH
the presence error and the enum-membership error, contradicting the claimed
mutual exclusivity (and the claim that the empty string yields only the
enum-membership error). -/
theorem C2_counterexample :
    validateViolation bodyEmptyTier =
      ["tier is required", "tier must be MINOR, MODERATE or SEVERE"] := by decide

/-- C2 (amended): the presence error fires exactly when tier is falsy and the
enum-membership error exactly when tier is not one of the three exact
strings; a falsy tier (absent or empty string) always fails the enum check
too, so the two errors co-occur for every falsy tier instead of being
mutually exclusive. -/
theorem C2_tier_error_cooccur (b : Body) :
    ("tier is required" ∈ validateViolation b ↔ b.tier.truthy = false) ∧
    ("tier must be MINOR, MODERATE or SEVERE" ∈ validateViolation b ↔
      tierIncluded b.tier = false) ∧
    (b.tier.truthy = false → tierIncluded b.tier = false) := by
  refine ⟨required_err_mem_iff b, enum_err_mem_iff b, ?_⟩
  intro h
  cases hv : b.tier with
  | undef => rfl
  | null => rfl
  | nan => rfl
  | num x => rfl
  | str s =>
    rw [hv] at h
    have hs : s = "" := not_not.mp (of_decide_eq_false h)
    subst hs
    rfl

/-- C2 witness: the amended statement evaluated at the empty-string tier. -/
theorem C2_tier_error_cooccur_witness :
    ("tier is required" ∈ validateViolation bodyEmptyTier) ∧
      tierIncluded bodyEmptyTier.tier = false :=
  ⟨(C2_tier_error_cooccur bodyEmptyTier).1.mpr (by decide),
   (C2_tier_error_cooccur bodyEmptyTier).2.2 (by decide)⟩

/-- C3 counterexample: a speed supplied as the numeric string "80" is NOT
accepted — the typeof check rejects every string, so the request is answered
400 with the speed error. -/
theorem C3_counterexample :
    (postViolation initState none bodyStrSpeed).2.status = 400 ∧
    (postViolation initState none bodyStrSpeed).2.errors = ["speed must be a number"] := by
  decide

/-- C3 (amended): speed and limit are each accepted exactly when the supplied
JSON value is number-typed — no string-to-number coercion happens at
validation, so numeric strings are rejected — and the spec example with
speed "x" is answered 400 with an error mentioning speed. -/
theorem C3_speed_typeof (st : State) (b : Body) :
    ("speed must be a number" ∈ validateViolation b ↔ b.speed.typeofNumber = false) ∧
    ("limit must be a number" ∈ validateViolation b ↔ b.limit.typeofNumber = false) ∧
    ((postViolation st none bodySpeedX).2.status = 400 ∧
      "speed must be a number" ∈ (postViolation st none bodySpeedX).2.errors) := by
  refine ⟨speed_err_mem_iff b, limit_err_mem_iff b, rfl, ?_⟩
  exact (by decide : "speed must be a number" ∈ ["speed must be a number"])

/-- C3 witness: the amended statement evaluated at the string-speed payloads. -/
theorem C3_speed_typeof_witness :
    ("speed must be a number" ∈ validateViolation bodyStrSpeed) ∧
    (postViolation initState none bodySpeedX).2.status = 400 :=
  ⟨(C3_speed_typeof initState bodyStrSpeed).1.mpr (by decide),
   (C3_speed_typeof initState bodyStrSpeed).2.2.1⟩

/-- C4 counterexample: when the store fails during GET /api/violations the
response body carries the internal error text verbatim (and nothing is
logged server-side), contradicting the claim that no route ever exposes the
internal detail. -/
theorem C4_counterexample :
    (getViolations initState (some "SQLITE_IOERR: disk I/O error") {}).status = 500 ∧
    (getViolations initState (some "SQLITE_IOERR: disk I/O error") {}).error =
      some "SQLITE_IOERR: disk I/O error" ∧
    (getViolations initState (some "SQLITE_IOERR: disk I/O error") {}).serverLog = [] := by
  decide

/-- C4 (amended): only POST /api/violation hides the store failure behind the
generic "Database error" body while logging the detail server-side;
GET /api/violations answers 500 with the internal err.message in the body
and logs nothing. -/
theorem C4_store_failure (st : State) (b : Body) (q : Query) (msg : String)
    (hv : validateViolation b = []) :
    postViolation st (some msg) b =
      (st, { status := 500, ok := false, error := some "Database error",
             serverLog := ["[POST] DB error: " ++ msg] }) ∧
    getViolations st (some msg) q =
      { status := 500, ok := false, error := some msg } := by
  constructor
  · simp [postViolation, hv]
  · rfl

/-- C4 witness: the amended statement evaluated at a concrete failure. -/
theorem C4_store_failure_witness :
    postViolation initState (some "disk I/O error") bodyGood =
      (initState, { status := 500, ok := false, error := some "Database error",
                    serverLog := ["[POST] DB error: disk I/O error"] }) ∧
    getViolations initState (some "disk I/O error") {} =
      { status := 500, ok := false, error := some "disk I/O error" } :=
  C4_store_failure initState bodyGood {} "disk I/O error" (by decide)

/-- C5 counterexample: with an unparsable limit the computed limit is NaN,
not the claimed default of 200, and the request does not return records at
all — the NULL-bound LIMIT makes SQLite raise a datatype mismatch that the
handler answers as a 500. -/
theorem C5_counterexample :
    parseLimit (some "abc") = none ∧
    ¬ parseLimit (some "abc") = some 200 ∧
    getViolations initState none { limit := some "abc" } =
      { status := 500, ok := false, error := some "datatype mismatch" } := by decide

/-- C5 (amended): the limit defaults to 200 only when the parameter is
absent or empty; a parsable limit is capped at 1000, so limit=5000 returns
at most 1000 records whatever is stored; an unparsable limit parses to NaN,
is bound as NULL, and the query fails — the response is 500 {ok:false,
error:"datatype mismatch"} — instead of falling back to the 200 default. -/
theorem C5_limit_clamp :
    parseLimit none = some 200 ∧
    parseLimit (some "") = some 200 ∧
    (∀ s n, jsParseIntStr s = some n → parseLimit (some s) = some (min n 1000)) ∧
    (∀ st : State, ∀ s, s ≠ "" → jsParseIntStr s = none →
      getViolations st none { limit := some s } =
        { status := 500, ok := false, error := some "datatype mismatch" }) ∧
    (∀ st : State,
      ((getViolations st none { limit := some "5000" }).violations).length ≤ 1000) := by
  refine ⟨by decide, by decide, ?_, ?_, ?_⟩
  · intro s n h
    have hs : s ≠ "" := by
      intro he
      have h0 : jsParseIntStr "" = none := by decide
      rw [he, h0] at h
      exact Option.noConfusion h
    simp [parseLimit, hs, h]
  · intro st s hs hnone
    have hlim : parseLimit (some s) = none := by simp [parseLimit, hs, hnone]
    simp [getViolations, hlim]
  · intro st
    have hlim : parseLimit (some "5000") = some 1000 := by decide
    simp only [getViolations, hlim, applyLimit]
    norm_num

/-- C5 witness: the amended statement evaluated at limits "5000" and "abc". -/
theorem C5_limit_clamp_witness :
    parseLimit (some "5000") = some (min (5000 : Int) 1000) ∧
    getViolations initState none { limit := some "abc" } =
      { status := 500, ok := false, error := some "datatype mismatch" } ∧
    ((getViolations initState none { limit := some "5000" }).violations).length ≤ 1000 :=
  ⟨C5_limit_clamp.2.2.1 "5000" 5000 (by decide),
   C5_limit_clamp.2.2.2.1 initState "abc" (by decide) (by decide),
   C5_limit_clamp.2.2.2.2 initState⟩

/-- C7 (confirmed): DELETE /api/violations with a key different from the
admin secret answers 401 {ok:false, error:"Unauthorized"} and leaves the
state (hence the record count) unchanged; with the correct key every record
is removed and the response is 200 with ok:true. -/
theorem C7_delete_requires_key (st : State) (key : Option String) (adminKey : String) :
    (key ≠ some adminKey →
      deleteViolations st key adminKey =
        (st, { status := 401, ok := false, error := some "Unauthorized" })) ∧
    (key = some adminKey →
      (deleteViolations st key adminKey).1.rows = [] ∧
      (deleteViolations st key adminKey).2.status = 200 ∧
      (deleteViolations st key adminKey).2.ok = true) := by
  constructor
  · intro h
    simp [deleteViolations, h]
  · intro h
    simp [deleteViolations, h]

/-- C7 witness: both branches evaluated on a non-empty store. -/
theorem C7_delete_requires_key_witness :
    deleteViolations stGood (some "wrong") "changeme" =
      (stGood, { status := 401, ok := false, error := some "Unauthorized" }) ∧
    ((deleteViolations stGood (some "changeme") "changeme").1.rows = [] ∧
     (deleteViolations stGood (some "changeme") "changeme").2.status = 200 ∧
     (deleteViolations stGood (some "changeme") "changeme").2.ok = true) :=
  ⟨(C7_delete_requires_key stGood (some "wrong") "changeme").1 (by decide),
   (C7_delete_requires_key stGood (some "changeme") "changeme").2 rfl⟩

/-- C9 counterexample: a payload with device explicitly the empty string is
accepted (201) and stores the empty device text, so an accepted payload CAN
cause an empty device value to be stored. -/
theorem C9_counterexample :
    (postViolation initState none bodyEmptyDevice).2.status = 201 ∧
    (postViolation initState none bodyEmptyDevice).1.rows.map (fun r => r.device) =
      [SqlVal.text ""] := by decide

/-- C9 (amended): the device defaults to the literal "UNKNOWN" exactly when
the field is absent — an accepted payload with absent device stores
"UNKNOWN" — but device itself is never validated, so a supplied empty
string is stored as-is. -/
theorem C9_device_default (st : State) (b : Body) (h : b.device = JSVal.undef)
    (h201 : (postViolation st none b).2.status = 201) :
    (buildRow b).device = SqlVal.text "UNKNOWN" ∧
    ∃ r, (postViolation st none b).1.rows = st.rows ++ [r] ∧
      r.device = SqlVal.text "UNKNOWN" := by
  have hb : (buildRow b).device = SqlVal.text "UNKNOWN" := by
    simp [buildRow, h, bindJS]
  refine ⟨hb, ?_⟩
  rcases postViolation_cases st b with ⟨_, hne⟩ | ⟨_, heq, _⟩
  · exact absurd h201 hne
  · exact ⟨storedOf st (buildRow b), by rw [heq], by simp [storedOf, hb]⟩

/-- C9 witness: the amended statement evaluated at a device-less payload. -/
theorem C9_device_default_witness :
    (buildRow bodyNoDevice).device = SqlVal.text "UNKNOWN" ∧
    ∃ r, (postViolation initState none bodyNoDevice).1.rows = initState.rows ++ [r] ∧
      r.device = SqlVal.text "UNKNOWN" :=
  C9_device_default initState bodyNoDevice rfl (by decide)

/-- C10 (confirmed): the payload with numeric speed and limit, valid tier and
excess "x" passes validation, its computed excess is NaN and binds NULL, the
insert violates the NOT NULL constraint, and the response is the generic 500
{ok:false, error:"Database error"} with the state unchanged; likewise a
garbage lat passes validation and is simply stored as NULL on a 201. -/
theorem C10_excess_unvalidated :
    validateViolation bodyExcessBad = [] ∧
    (buildRow bodyExcessBad).excess = SqlVal.null ∧
    postViolation initState none bodyExcessBad =
      (initState,
       { status := 500, ok := false, error := some "Database error",
         serverLog := ["[POST] DB error: NOT NULL constraint failed: violations"] }) ∧
    validateViolation bodyLatBad = [] ∧
    (postViolation initState none bodyLatBad).2.status = 201 ∧
    (postViolation initState none bodyLatBad).1.rows.map (fun r => r.lat) =
      [SqlVal.null] := by
  decide

/-- C6 counterexample: on the empty store (reachable, e.g. the initial state
or after a delete-all) `stmtStats` returns total 0 but NULL tier counts —
SUM over zero rows is NULL — so the total does not equal a sum of the three
counts there. -/
theorem C6_counterexample :
    Reachable initState ∧
    (summaryStats initState.rows).total = 0 ∧
    (summaryStats initState.rows).severe = none ∧
    (summaryStats initState.rows).moderate = none ∧
    (summaryStats initState.rows).minor = none :=
  ⟨Reachable.init, by decide, by decide, by decide, by decide⟩

/-- C6 (amended): after every sequence of successful inserts and delete-alls
every stored tier lies in {MINOR, MODERATE, SEVERE}, and whenever at least
one record is stored the three tier counts are non-NULL and their sum equals
the total; on the empty store the counts are NULL while total is 0. -/
theorem C6_stats_total (st : State) (h : Reachable st) :
    (∀ r ∈ st.rows, r.tier = SqlVal.text "MINOR" ∨ r.tier = SqlVal.text "MODERATE" ∨
      r.tier = SqlVal.text "SEVERE") ∧
    (st.rows ≠ [] →
      (summaryStats st.rows).severe = some (severeCount st.rows) ∧
      (summaryStats st.rows).moderate = some (moderateCount st.rows) ∧
      (summaryStats st.rows).minor = some (minorCount st.rows) ∧
      (summaryStats st.rows).total =
        severeCount st.rows + moderateCount st.rows + minorCount st.rows) := by
  have htier := reachable_tier_mem st h
  refine ⟨htier, fun hne => ?_⟩
  have hempty : st.rows.isEmpty = false := by
    cases hr : st.rows with
    | nil => exact absurd hr hne
    | cons a l => rfl
  refine ⟨?_, ?_, ?_, ?_⟩
  · simp [summaryStats, hempty]
  · simp [summaryStats, hempty]
  · simp [summaryStats, hempty]
  · simp only [summaryStats]
    exact (tier_count_partition st.rows htier).symm

/-- C6 witness: the amended statement evaluated after one successful POST. -/
theorem C6_stats_total_witness :
    (summaryStats stGood.rows).severe = some (severeCount stGood.rows) ∧
    (summaryStats stGood.rows).moderate = some (moderateCount stGood.rows) ∧
    (summaryStats stGood.rows).minor = some (minorCount stGood.rows) ∧
    (summaryStats stGood.rows).total =
      severeCount stGood.rows + moderateCount stGood.rows + minorCount stGood.rows :=
  (C6_stats_total stGood (Reachable.post initState bodyGood Reachable.init)).2 (by decide)

/-- C8 counterexample: the payload with excess "x" passes validation yet the
POST answers 500, so not every validation-passing payload returns 201 with a
retrievable id. -/
theorem C8_counterexample :
    validateViolation bodyExcessBad = [] ∧
    (postViolation initState none bodyExcessBad).2.status = 500 := by decide

/-- C8 (amended): for every payload that passes validation and whose
normalized row also satisfies the schema's NOT NULL constraints (non-NaN
speed, limit and excess, non-null device), POST answers 201 with the fresh
id, and GET of that id returns the stored record whose device, speed,
speed_limit, excess, tier, lat and lon equal the normalized submitted
values, only id and received_at being server-assigned. -/
theorem C8_roundtrip (st : State) (b : Body) (idStr : String)
    (hre : Reachable st) (hv : validateViolation b = [])
    (hd : (buildRow b).device ≠ SqlVal.null) (hs : (buildRow b).speed ≠ SqlVal.null)
    (hl : (buildRow b).speed_limit ≠ SqlVal.null) (he : (buildRow b).excess ≠ SqlVal.null)
    (hid : jsParseIntStr idStr = some (st.nextId : Int)) :
    (postViolation st none b).2 = { status := 201, ok := true, id := some st.nextId } ∧
    getViolationById (postViolation st none b).1 idStr =
      { status := 200, ok := true, violation := some (storedOf st (buildRow b)) } := by
  have htier : (buildRow b).tier ≠ SqlVal.null := by simp [buildRow]
  have hc : ¬((buildRow b).device = SqlVal.null ∨ (buildRow b).speed = SqlVal.null ∨
      (buildRow b).speed_limit = SqlVal.null ∨ (buildRow b).excess = SqlVal.null ∨
      (buildRow b).tier = SqlVal.null) := by
    push_neg
    exact ⟨hd, hs, hl, he, htier⟩
  have hpost : postViolation st none b =
      ({ rows := st.rows ++ [storedOf st (buildRow b)],
         nextId := st.nextId + 1, clock := st.clock + 1 },
       { status := 201, ok := true, id := some st.nextId }) := by
    simp [postViolation, hv, insertRow, hc]
  have hpref : ∀ r ∈ st.rows,
      (fun r : StoredRow => ((r.id : Int) == (st.nextId : Int))) r = false := by
    intro r hr
    have hlt := reachable_id_lt st hre r hr
    have hne2 : (r.id : Int) ≠ (st.nextId : Int) := by exact_mod_cast Nat.ne_of_lt hlt
    simp only [beq_eq_false_iff_ne, ne_eq]
    exact hne2
  have hfind : List.find? (fun r : StoredRow => ((r.id : Int) == (st.nextId : Int)))
      (st.rows ++ [storedOf st (buildRow b)]) = some (storedOf st (buildRow b)) := by
    rw [find?_append_false _ _ _ hpref]
    simp [List.find?, storedOf]
  constructor
  · rw [hpost]
  · rw [hpost]
    simp only [getViolationById, hid, hfind]

/-- C8 witness: the amended statement evaluated at a fully valid payload. -/
theorem C8_roundtrip_witness :
    (postViolation initState none bodyGood).2 =
      { status := 201, ok := true, id := some initState.nextId } ∧
    getViolationById (postViolation initState none bodyGood).1 "1" =
      { status := 200, ok := true,
        violation := some (storedOf initState (buildRow bodyGood)) } :=
  C8_roundtrip initState bodyGood "1" Reachable.init (by decide) (by decide) (by decide)
    (by decide) (by decide) (by decide)

end SpeedServer
